import Mathlib

/-!
Verification of the pymks_overview repository: a corpus of Jupyter notebook
documents (tutorial notebooks for the external MKS materials-informatics
library).  The data model embeds each notebook document as its ordered list
of code cells, each cell being the verbatim list of source lines recorded in
the notebook JSON, together with the kernel metadata the document declares.
`src/notebooks/elasticity_2D.ipynb` contains two concatenated notebook
documents; both are embedded.  Markdown cells carry no code and are omitted:
every property below quantifies over code cells only.

All analyses (import structure, stub detection, Python-2 print statements,
seeding discipline, ...) are executable Boolean functions over this
embedding, so each property is settled by evaluation.
-/

namespace PymksOverview

/-- One notebook document of the repository: its file path, whether the file
lies under `src/notebooks`, the kernel name and language version declared in
its metadata (absent for the nbformat-3 document `src/unnamed/part_000`), and
its code cells in notebook order, each cell the verbatim list of source lines
from the notebook JSON. -/
structure NotebookDoc where
  path : String
  inNotebooksDir : Bool
  kernelName : Option String
  kernelLanguageVersion : Option String
  codeCells : List (List String)

/-- First notebook document in src/notebooks/elasticity_2D.ipynb (linear elasticity in 2D, two phases). The code cells are transcribed verbatim, in notebook order; markdown cells carry no code and are omitted. -/
def elasticity_2D_doc1 : NotebookDoc where
  path := "src/notebooks/elasticity_2D.ipynb"
  inNotebooksDir := true
  kernelName := some "python2"
  kernelLanguageVersion := some "2.7.9"
  codeCells :=
    [
      [ "%matplotlib inline\n"
      , "%load_ext autoreload\n"
      , "%autoreload 2\n"
      , "\n"
      , "import numpy as np\n"
      , "import matplotlib.pyplot as plt"
      ]
    , [ "n = 21\n"
      , "\n"
      , "from pymks.tools import draw_microstructures\n"
      , "from pymks.datasets import make_delta_microstructures\n"
      , "\n"
      , "X_delta = make_delta_microstructures(n_phases=2, size=(n, n))\n"
      , "draw_microstructures(X_delta)"
      ]
    , [ "from pymks.datasets import make_elastic_FE_strain_delta\n"
      , "\n"
      , "elastic_modulus = (100, 120)\n"
      , "poissons_ratio = (0.3, 0.3)\n"
      , "macro_strain = 0.02\n"
      , "size = (n, n)\n"
      , "\n"
      , "= make_elastic_FE_strain_delta(elastic_modulus=elastic_modulus,\n"
      , "                                                poissons_ratio=poissons_ratio,\n"
      , "                                                size=size, macro_strain=macro_strain)"
      ]
    , [ "from pymks.tools import draw_microstructure_strain\n"
      , "\n"
      , "draw_microstructure_strain(,)"
      ]
    , [ "from pymks import MKSLocalizationModel\n"
      , "from pymks import PrimitiveBasis\n"
      , "\n"
      , "= PrimitiveBasis(n_states=2, domain=[0, 1])\n"
      , "model = MKSLocalizationModel(basis=)"
      ]
    , [ "model.fit()"
      ]
    , [ "from pymks.tools import draw_coeff\n"
      , "\n"
      , "draw_coeff()"
      ]
    , [ "from pymks.datasets import make_elastic_FE_strain_random\n"
      , "\n"
      , "np.random.seed(99)\n"
      , "\n"
      , "= make_elastic_FE_strain_random(n_samples=1, elastic_modulus=elastic_modulus,\n"
      , "                                          poissons_ratio=poissons_ratio, size=size,\n"
      , "                                          macro_strain=macro_strain)\n"
      , "\n"
      , "draw_microstructure_strain()"
      ]
    , [ "strain_predict = model.predict()\n"
      ]
    , [ "from pymks.tools import draw_strains_compare\n"
      , "\n"
      , "draw_strains_compare(, )"
      ]
    , [ "from pymks.tools import draw_differences\n"
      , "\n"
      , "draw_differences([], [\"FE - MKS\"])"
      ]
    , [ "m = 3 * n\n"
      , "size = (m, m)\n"
      , "print size\n"
      , "\n"
      , "= make_elastic_FE_strain_random(n_samples=1, elastic_modulus=elastic_modulus,\n"
      , "                                          poissons_ratio=poissons_ratio, size=size,\n"
      , "                                          macro_strain=macro_strain)\n"
      , "draw_microstructure_strain()"
      ]
    , [ "model.resize_coeff()"
      ]
    , [ "draw_coeff()"
      ]
    , [ "strain_predict = model.predict(X)\n"
      , "\n"
      , "draw_strains_compare(strain[0], strain_predict[0])"
      ]
    , []
    , [ "draw_differences([], [\"FE - MKS, Big\"])"
      ]
    ]

/-- Second notebook document concatenated in src/notebooks/elasticity_2D.ipynb (linear elasticity, three phases). The code cells are transcribed verbatim, in notebook order; markdown cells carry no code and are omitted. -/
def elasticity_2D_doc2 : NotebookDoc where
  path := "src/notebooks/elasticity_2D.ipynb"
  inNotebooksDir := true
  kernelName := some "python2"
  kernelLanguageVersion := some "2.7.10"
  codeCells :=
    [
      [ "%matplotlib inline\n"
      , "%load_ext autoreload\n"
      , "%autoreload 2\n"
      , "\n"
      , "import numpy as np\n"
      , "import matplotlib.pyplot as plt"
      ]
    , [ "from pymks.datasets import make_delta_microstructures\n"
      , "n = 21\n"
      , "n_phases = 3\n"
      , "\n"
      ]
    , [ "from pymks.tools import draw_microstructures\n"
      , "\n"
      ]
    , [ "from pymks.datasets import make_elastic_FE_strain_delta\n"
      , "\n"
      , "elastic_modulus = (80, 100, 120)\n"
      , "poissons_ratio = (0.3, 0.3, 0.3)\n"
      , "macro_strain = 0.02\n"
      , "size = (n, n)\n"
      , "\n"
      , "= make_elastic_FE_strain_delta(elastic_modulus=elastic_modulus,\n"
      , "                                                      poissons_ratio=poissons_ratio,\n"
      , "                                                      size=size, macro_strain=macro_strain)"
      ]
    , [ "from pymks.tools import draw_microstructure_strain\n"
      ]
    , [ "from pymks import MKSLocalizationModel\n"
      , "from pymks import PrimitiveBasis\n"
      ]
    , []
    , [ "from pymks.tools import draw_coeff\n"
      ]
    , [ "from pymks.datasets import make_elastic_FE_strain_random\n"
      , "\n"
      , "np.random.seed(101)"
      ]
    , []
    , []
    , [ "from pymks.tools import draw_strains_compare\n"
      , "\n"
      ]
    , [ "from pymks.tools import draw_differences\n"
      ]
    , [ "m = 3 * n \n"
      , "size = (m, m)\n"
      , "print size\n"
      , "\n"
      , "= make_elastic_FE_strain_random(n_samples=1, elastic_modulus=elastic_modulus,\n"
      , "                                          poissons_ratio=poissons_ratio, size=size,\n"
      , "                                          macro_strain=macro_strain)"
      ]
    , []
    , []
    , [ "\n"
      , "\n"
      ]
    , []
    , []
    ]

/-- src/notebooks/cahn_hilliard.ipynb (Cahn-Hilliard microstructure evolution). The code cells are transcribed verbatim, in notebook order; markdown cells carry no code and are omitted. -/
def cahn_hilliard : NotebookDoc where
  path := "src/notebooks/cahn_hilliard.ipynb"
  inNotebooksDir := true
  kernelName := some "python2"
  kernelLanguageVersion := some "2.7.9"
  codeCells :=
    [
      [ "%matplotlib inline\n"
      , "%load_ext autoreload\n"
      , "%autoreload 2\n"
      , "\n"
      , "import numpy as np\n"
      , "import matplotlib.pyplot as plt"
      ]
    , [ "import pymks\n"
      , "from pymks.datasets import make_cahn_hilliard\n"
      , "\n"
      , "n = 41\n"
      , "n_samples = 400\n"
      , "dt = 1e-2\n"
      , "np.random.seed(99)\n"
      , "= make_cahn_hilliard(n_samples=n_samples, size=(n, n), dt=dt)\n"
      ]
    , [ "from pymks.tools import draw_concentrations\n"
      , "\n"
      , "draw_concentrations((, ), labels=(\x27Input\x27, \x27Out\x27))"
      ]
    , [ "import sklearn\n"
      , "from sklearn.cross_validation import train_test_split\n"
      , "\n"
      , "split_shape = (X.shape[0],) + (np.product(X.shape[1:]),)\n"
      , "= train_test_split(X.reshape(split_shape), y.reshape(split_shape),\n"
      , "                                                    test_size=0.5, random_state=3)"
      ]
    , [ "from pymks import MKSLocalizationModel\n"
      , "from pymks.bases import PrimitiveBasis"
      ]
    , [ "from sklearn.grid_search import GridSearchCV\n"
      , "\n"
      , "parameters_to_tune = \x7b\x27n_states\x27: np.arange(2, 11)\x7d\n"
      , "prim_basis = PrimitiveBasis(2, [-1, 1])\n"
      , "model = MKSLocalizationModel(prim_basis)\n"
      , "gs = GridSearchCV(model, parameters_to_tune, cv=5, fit_params=\x7b\x27size\x27: (n, n)\x7d)\n"
      , "gs.fit(, )"
      ]
    , [ "print(gs.best_estimator_)\n"
      , "print(gs.score(, ))"
      ]
    , [ "from pymks.tools import draw_gridscores\n"
      , "\n"
      , "draw_gridscores(gs.grid_scores_, \x27n_states\x27,\n"
      , "                score_label=\x27R-squared\x27, param_label=\x27L - Number of states\x27)"
      ]
    , [ "model = MKSLocalizationModel(basis=PrimitiveBasis(6, [-1, 1]))\n"
      , "model.fit(,)"
      ]
    , [ "from pymks.tools import draw_coeff\n"
      , "\n"
      , "draw_coeff()"
      ]
    , [ "from pymks.datasets.cahn_hilliard_simulation import CahnHilliardSimulation\n"
      , "np.random.seed(191)\n"
      , "\n"
      , "phi0 = np.random.normal(0, 1e-9, (1, n, n))\n"
      , "ch_sim = CahnHilliardSimulation(dt=dt)\n"
      , "phi_sim = phi0.copy()\n"
      , "phi_pred = phi0.copy()\n"
      ]
    , [ "time_steps = 10\n"
      , "\n"
      , "for ii in range(time_steps):\n"
      , "    ch_sim.run(phi_sim)\n"
      , "    phi_sim = ch_sim.response\n"
      , "    phi_pred = model.predict(phi_pred)"
      ]
    , [ "from pymks.tools import draw_concentrations_compare\n"
      , "\n"
      , "draw_concentrations_compare((phi_sim[0], phi_pred[0]), \n"
      , "                            labels=(\x27Simulation\x27, \x27MKS\x27))"
      ]
    , [ "m = 3 * n\n"
      , "\n"
      , "phi0 = np.random.normal(0, 1e-9, (1, m, m))\n"
      , "phi_sim = phi0.copy()\n"
      , "phi_pred = phi0.copy()"
      ]
    , [ "for ii in range(1000):\n"
      , "    ch_sim.run(phi_sim)\n"
      , "    phi_sim = ch_sim.response\n"
      , "    phi_pred = model.predict(phi_pred)"
      ]
    , [ "from pymks.tools import draw_concentrations_compare\n"
      ]
    ]

/-- src/notebooks/checker_board.ipynb (2-point spatial statistics on a checkerboard microstructure). The code cells are transcribed verbatim, in notebook order; markdown cells carry no code and are omitted. -/
def checker_board : NotebookDoc where
  path := "src/notebooks/checker_board.ipynb"
  inNotebooksDir := true
  kernelName := some "python2"
  kernelLanguageVersion := some "2.7.9"
  codeCells :=
    [
      [ "%matplotlib inline\n"
      , "%load_ext autoreload\n"
      , "%autoreload 2\n"
      , "\n"
      , "import numpy as np\n"
      , "import matplotlib.pyplot as plt\n"
      ]
    , [ "from pymks.datasets import make_checkerboard_microstructure\n"
      , "\n"
      , " = make_checkerboard_microstructure(square_size=, n_squares=)\n"
      ]
    , [ "from pymks.tools import draw_microstructures\n"
      , "\n"
      , "draw_microstructures()\n"
      , "\n"
      , "print .shape\n"
      ]
    , [ "from pymks.stats import autocorrelate\n"
      , "from pymks import PrimitiveBasis\n"
      , "\n"
      , " = PrimitiveBasis(n_states=)\n"
      , " = .discretize()\n"
      , " = autocorrelate(, periodic_axes=(0, 1))\n"
      ]
    , [ "from pymks.tools import draw_autocorrelations\n"
      , "\n"
      , "correlations = [(\x27black\x27, \x27black\x27), (\x27white\x27, \x27white\x27)]\n"
      , "draw_autocorrelations([0], autocorrelations=correlations)\n"
      ]
    , [ "center = (.shape[1] + 1) / 2\n"
      , "print \x27Volume fraction of black phase\x27, [0, center, center, 0]\n"
      , "print \x27Volume fraction of white phase\x27, [0, center, center, 1]\n"
      ]
    , [ "from pymks.stats import crosscorrelate\n"
      , "\n"
      , " = crosscorrelate(, periodic_axes=(0, 1))\n"
      ]
    , [ "from pymks.tools import draw_crosscorrelations\n"
      , "\n"
      , "correlations = [(\x27black\x27, \x27white\x27)]\n"
      , "draw_crosscorrelations([0], crosscorrelations=correlations)\n"
      ]
    , [ "print \x27Center value\x27, [0, center, center, 0]\n"
      ]
    ]

/-- src/notebooks/.ipynb_checkpoints/python_intro-checkpoint.ipynb (Python introduction exercises). The code cells are transcribed verbatim, in notebook order; markdown cells carry no code and are omitted. -/
def python_intro_checkpoint : NotebookDoc where
  path := "src/notebooks/.ipynb_checkpoints/python_intro-checkpoint.ipynb"
  inNotebooksDir := true
  kernelName := some "python2"
  kernelLanguageVersion := some "2.7.9"
  codeCells :=
    [
      []
    , [ "log10(10)"
      ]
    , [ "import math\n"
      , "\n"
      , "math.log10(10)"
      ]
    , [ "? math.log10"
      ]
    , [ "my_name = "
      ]
    , [ "intro = \x27Hello, my name is \x27\n"
      , "\n"
      , "print(intro + my_name + \x27.\x27)"
      ]
    , [ "first_initial = \x27My first initial is \x27\n"
      , "print(first_initial + my_name[0] + \x27.\x27)"
      ]
    , [ "initials = \x27My initials are \x27\n"
      , "\n"
      , "print(initials + my_name[0] + my_name[] + \".\")"
      ]
    , [ "import numpy as np\n"
      , "\n"
      , "B = np.ones((3, 3))\n"
      , "print(B)"
      ]
    , []
    , [ "? np.dot"
      ]
    , [ "N = \n"
      , "A = np.eye(N) * 2\n"
      , "x = np.arange(N)\n"
      , "\n"
      , "print(\x27A =\x27)\n"
      , "print(A)\n"
      , "print(\x27x =\x27)\n"
      , "print(x)\n"
      , "\n"
      , "print(\x27y =\x27)\n"
      , "print(y)"
      ]
    , []
    , [ "%matplotlib inline\n"
      , "\n"
      , "# Code source: Jaques Grobler\n"
      , "# License: BSD 3 clause\n"
      , "\n"
      , "\n"
      , "import matplotlib.pyplot as plt\n"
      , "from sklearn import datasets, linear_model\n"
      , "\n"
      , "# Load the diabetes dataset\n"
      , "diabetes = datasets.load_diabetes()\n"
      , "\n"
      , "\n"
      , "# Use only one feature\n"
      , "diabetes_X = diabetes.data[:, np.newaxis]\n"
      , "diabetes_X_temp = diabetes_X[:, :, 2]\n"
      , "\n"
      , "# Split the data into training/testing sets\n"
      , "diabetes_X_train = diabetes_X_temp[:-20]\n"
      , "diabetes_X_test = diabetes_X_temp[-20:]\n"
      , "\n"
      , "# Split the targets into training/testing sets\n"
      , "diabetes_y_train = diabetes.target[:-20]\n"
      , "diabetes_y_test = diabetes.target[-20:]\n"
      , "\n"
      , "# Create linear regression object\n"
      , "regr = linear_model.LinearRegression()\n"
      , "\n"
      , "# Train the model using the training sets\n"
      , "# regr.fit(diabetes_X_train, diabetes_y_train)\n"
      , "\n"
      , "# Predict result\n"
      , "# y = regr.predict(diabetes_X_test)\n"
      , "\n"
      , "# The coefficients\n"
      , "print(\x27Coefficients: \\n\x27, regr.coef_)\n"
      , "# The mean square error\n"
      , "print(\"Residual sum of squares: %.2f\"\n"
      , "      % np.mean((y - diabetes_y_test) ** 2))\n"
      , "# Explained variance score: 1 is perfect prediction\n"
      , "print(\x27Variance score: %.2f\x27 % regr.score(diabetes_X_test, diabetes_y_test))\n"
      , "\n"
      , "# Plot outputs\n"
      , "plt.scatter(diabetes_X_test, diabetes_y_test,  color=\x27black\x27)\n"
      , "plt.plot(diabetes_X_test, y, color=\x27blue\x27, linewidth=3)\n"
      , "\n"
      , "plt.xticks(())\n"
      , "plt.yticks(())\n"
      , "\n"
      , "plt.show()"
      ]
    , []
    ]

/-- src/unnamed/part_000, an nbformat-3 notebook (MKS homogenization on elastic stress data); it carries no kernelspec metadata. The code cells are transcribed verbatim, in notebook order; markdown cells carry no code and are omitted. -/
def part_000 : NotebookDoc where
  path := "src/unnamed/part_000"
  inNotebooksDir := false
  kernelName := none
  kernelLanguageVersion := none
  codeCells :=
    [
      [ "%matplotlib inline\n"
      , "%load_ext autoreload\n"
      , "%autoreload 2\n"
      , "\n"
      , "import numpy as np\n"
      , "import matplotlib.pyplot as plt\n"
      ]
    , [ "from pymks.datasets import make_elastic_stress_random\n"
      , "sample_size = 200\n"
      , "grain_size = [(15, 2), (2, 15), (7, 7), (8, 3), (3, 9), (2, 2)]\n"
      , "n_samples = [sample_size] * 6\n"
      , "elastic_modulus = (410, 200)\n"
      , "poissons_ratio = (0.28, 0.3)\n"
      , "macro_strain = 0.001\n"
      , "size = (21, 21)\n"
      , "\n"
      , "X, y = "
      ]
    , [ "from pymks.tools import draw_microstructures\n"
      , "X_examples = X[::sample_size]\n"
      ]
    , []
    , [ "from pymks import MKSHomogenizationModel\n"
      , "from pymks import PrimitiveBasis\n"
      , "\n"
      , "prim_basis = \n"
      , "model = \n"
      ]
    , [ "model.n_components = 40\n"
      , "model.fit"
      ]
    , [ "from pymks.tools import draw_component_variance\n"
      , "\n"
      ]
    , [ "from sklearn.cross_validation import train_test_split\n"
      , "\n"
      , "flat_shape = (X.shape[0],) + (np.prod(X.shape[1:]),)\n"
      , "\n"
      , "\n"
      ]
    , [ "from sklearn.grid_search import GridSearchCV\n"
      , "\n"
      , "params_to_tune = \x7b\x27degree\x27: np.arange(1, 4), \x27n_components\x27: np.arange(1, 8)\x7d\n"
      , "fit_params = \x7b\x27size\x27: X[0].shape, \x27periodic_axes\x27: [0, 1]\x7d\n"
      , "gs = "
      ]
    , [ "from pymks.tools import draw_gridscores_matrix\n"
      , "\n"
      , "draw_gridscores_matrix\n"
      ]
    , [ "print(\x27Order of Polynomial\x27), (gs.best_estimator_.degree)\n"
      , "print(\x27Number of Components\x27), (gs.best_estimator_.n_components)\n"
      , "print(\x27R-squared Value\x27), (gs.score(X_test, y_test))"
      ]
    , [ "from pymks.tools import draw_gridscores\n"
      , "\n"
      , "gs_deg_1 = [x for x in gs.grid_scores_ \\\n"
      , "            if x.parameters[\x27degree\x27] == 1][2:-1]\n"
      , "gs_deg_2 = [x for x in gs.grid_scores_ \\\n"
      , "            if x.parameters[\x27degree\x27] == 2][2:-1]\n"
      , "gs_deg_3 = [x for x in gs.grid_scores_ \\\n"
      , "            if x.parameters[\x27degree\x27] == 3][2:-1]\n"
      , "\n"
      , "draw_gridscores([gs_deg_1,  gs_deg_2, gs_deg_3], \x27n_components\x27,\n"
      , "                data_labels=[\x271st Order\x27, \x272nd Order\x27, \x273rd Order\x27],\n"
      , "                colors=[\x27#f46d43\x27, \x27#1a9641\x27, \x27#762a83\x27],\n"
      , "                param_label=\x27Number of Components\x27, score_label=\x27R-Squared\x27)"
      ]
    , [ "model = gs.best_estimator_\n"
      , "model.fit(X, y, periodic_axes=[0, 1])"
      ]
    , [ "test_sample_size = 20\n"
      , "n_samples = [test_sample_size] * 6\n"
      , "X_new, y_new = "
      ]
    , [ "y_predict = \n"
      ]
    , [ "from pymks.tools import draw_components\n"
      , "\n"
      , "draw_components([model.reduced_fit_data[:, :2],\n"
      , "                 model.reduced_predict_data[:, :2]],\n"
      , "                [\x27Training Data\x27, \x27Testing Data\x27])"
      ]
    , [ "from sklearn.metrics import r2_score\n"
      , "print(\x27R-squared\x27), (model.score(X_new, y_new, periodic_axes=[0, 1]))"
      ]
    , [ "# Goodness of fit graph\n"
      , "\n"
      , "from pymks.tools import draw_goodness_of_fit\n"
      , "\n"
      , "fit_data = \n"
      , "pred_data = \n"
      , "draw_goodness_of_fit(fit_data, pred_data, [\x27Training Data\x27, \x27Testing Data\x27])"
      ]
    ]
/-- All notebook documents of the repository, in a fixed order. -/
def corpus : List NotebookDoc :=
  [elasticity_2D_doc1, elasticity_2D_doc2, cahn_hilliard, checker_board,
   python_intro_checkpoint, part_000]

/-- Test whether the first list of characters is a prefix of the second. -/
def listStarts : List Char → List Char → Bool
  | [], _ => true
  | _ :: _, [] => false
  | a :: as, b :: bs => a == b && listStarts as bs

/-- Test whether the first list of characters occurs as a contiguous
sublist of the second. -/
def hasSub (needle : List Char) : List Char → Bool
  | [] => listStarts needle []
  | c :: cs => listStarts needle (c :: cs) || hasSub needle cs

/-- Substring test on strings. -/
def lineContains (l pat : String) : Bool := hasSub pat.data l.data

/-- Drop leading space characters. -/
def dropLeadingSpaces : List Char → List Char
  | ' ' :: cs => dropLeadingSpaces cs
  | cs => cs

/-- Test whether a source line, after stripping leading indentation,
starts with the given string. -/
def lineStarts (l pre : String) : Bool :=
  listStarts pre.data (dropLeadingSpaces l.data)

/-- Whitespace relevant at the end of a notebook source line. -/
def isWs (c : Char) : Bool := c == ' ' || c == '\n'

/-- Drop leading whitespace characters (used on reversed lines). -/
def dropWhileWs : List Char → List Char
  | c :: cs => if isWs c then dropWhileWs cs else c :: cs
  | [] => []

/-- The source line reversed with trailing whitespace removed. -/
def revStripped (l : String) : List Char := dropWhileWs l.data.reverse

/-- All source lines of a document's code cells, cells in notebook order and
lines in cell order. -/
def docLines (nb : NotebookDoc) : List String := nb.codeCells.flatten

/-- A Python import statement: the line starts (after indentation) with
`import ` or `from `. -/
def isImportLine (l : String) : Bool :=
  lineStarts l "import " || lineStarts l "from "

/-- Characters that end the leading module name of an import statement. -/
def nameEnder (c : Char) : Bool := c == ' ' || c == '.' || c == '\n'

/-- The leading identifier of a character list, up to a space, dot or
newline. -/
def takeName : List Char → List Char
  | [] => []
  | c :: cs => if nameEnder c then [] else c :: takeName cs

/-- The root package of the module named by an import statement:
`from pymks.datasets import ...` and `import pymks` both yield `pymks`. -/
def importRoot (l : String) : Option String :=
  let s := dropLeadingSpaces l.data
  if listStarts "from ".data s then some (String.mk (takeName (s.drop 5)))
  else if listStarts "import ".data s then some (String.mk (takeName (s.drop 7)))
  else none

/-- A line that opens a Python function or class definition, or introduces a
lambda.  Used to check that the corpus implements nothing itself. -/
def isDefOrClassLine (l : String) : Bool :=
  lineStarts l "def " || lineStarts l "class " || lineContains l "lambda"

/-- A document defines a function or class in some code cell. -/
def docDefinesFunctionOrClass (nb : NotebookDoc) : Bool :=
  (docLines nb).any isDefOrClassLine

/-- The symbols through which the notebooks perform their computational
operations: strain-simulation and microstructure dataset generators,
Cahn-Hilliard time stepping, influence-coefficient calibration models, and
spatial-correlation functions. -/
def computationalSymbols : List String :=
  ["make_elastic_FE_strain_delta", "make_elastic_FE_strain_random",
   "make_elastic_stress_random", "make_delta_microstructures",
   "make_checkerboard_microstructure", "make_cahn_hilliard",
   "CahnHilliardSimulation", "MKSLocalizationModel",
   "MKSHomogenizationModel", "autocorrelate", "crosscorrelate"]

/-- The document uses the symbol outside an import statement. -/
def docUsesSymbol (nb : NotebookDoc) (s : String) : Bool :=
  (docLines nb).any fun l => !isImportLine l && lineContains l s

/-- The document imports the symbol from an external `pymks` or `sklearn`
module. -/
def docImportsSymbolExternally (nb : NotebookDoc) (s : String) : Bool :=
  (docLines nb).any fun l =>
    isImportLine l && lineContains l s &&
    (lineStarts l "from pymks" || lineStarts l "from sklearn")

/-- The document mentions the string on some code-cell line. -/
def docMentions (nb : NotebookDoc) (s : String) : Bool :=
  (docLines nb).any fun l => lineContains l s

/-- sklearn API symbols that some code cell imports and calls; none of them
belongs to the MKS library. -/
def sklearnCallSymbols : List String :=
  ["train_test_split", "GridSearchCV", "r2_score", "LinearRegression",
   "load_diabetes"]

/-- The document imports the symbol from a module rooted at `sklearn`. -/
def docImportsSymbolFromSklearn (nb : NotebookDoc) (s : String) : Bool :=
  (docLines nb).any fun l =>
    isImportLine l && lineContains l s && importRoot l == some "sklearn"

/-- The document calls the symbol (the symbol followed by an opening
parenthesis on a non-import line). -/
def docCallsSymbol (nb : NotebookDoc) (s : String) : Bool :=
  (docLines nb).any fun l => !isImportLine l && lineContains l (s ++ "(")

/-- The document imports a non-MKS external API symbol from sklearn and
calls it. -/
def docCallsNonMKSExternal (nb : NotebookDoc) : Bool :=
  sklearnCallSymbols.any fun s =>
    docImportsSymbolFromSklearn nb s && docCallsSymbol nb s

/-- The root packages from which code cells are allowed to import under the
amended external-interface claim: the MKS library plus the standard
scientific-Python stack. -/
def allowedImportRoots : List String :=
  ["pymks", "sklearn", "numpy", "matplotlib", "math"]

/-- Error-handling constructs and error-inspection markers, none of which
may appear in any code cell. -/
def errorHandlingMarkers : List String :=
  ["try:", "except", "raise", "Error", "Exception", "errno", ".status",
   "assert"]

/-- Module names a notebook would use to import another notebook of this
repository. -/
def notebookModuleNames : List String :=
  ["elasticity_2D", "cahn_hilliard", "checker_board", "python_intro",
   "part_000"]

/-- Notebook mechanisms that could carry data between notebooks or through
the filesystem. -/
def crossNotebookChannels : List String := ["%run", "%store", "open("]

/-- Constructs that write to the filesystem or another store outside the
kernel's memory. -/
def persistenceMarkers : List String :=
  ["open(", "file(", "save", "pickle", "write", "to_csv", "%store",
   "sqlite", "dump", "hdf"]

/-- Constructs that create threads or processes, use async primitives, or
share mutable state outside the kernel's namespace. -/
def concurrencyMarkers : List String :=
  ["thread", "Thread", "multiprocessing", "subprocess", "async", "await",
   "fork", "Pool", "concurrent", "joblib", "n_jobs"]

/-- A stub line with an empty assignment left-hand side: after indentation
the line starts with `=` (and is not a comparison `==`).  Not valid Python:
an assignment target cannot be empty. -/
def leadingEq (l : String) : Bool :=
  match dropLeadingSpaces l.data with
  | '=' :: '=' :: _ => false
  | '=' :: _ => true
  | _ => false

/-- Operator characters that make a trailing `=` part of a comparison or
augmented assignment rather than an empty right-hand side. -/
def isAugChar (c : Char) : Bool :=
  c == '=' || c == '<' || c == '>' || c == '!' || c == '+' || c == '-' ||
  c == '*' || c == '/' || c == '%'

/-- A stub line with an empty assignment right-hand side: ignoring trailing
whitespace the line ends with a bare `=`.  Not valid Python: an assignment
needs an expression after `=`. -/
def trailingEq (l : String) : Bool :=
  match revStripped l with
  | '=' :: c :: _ => !isAugChar c
  | ['='] => true
  | _ => false

/-- A stub line with an empty argument slot: a call like `f(,)`, or a
keyword argument with no value as in `f(size=, n=)`.  Not valid Python. -/
def emptyArgSlot (l : String) : Bool :=
  lineContains l "(," || lineContains l "=)" || lineContains l "=,"

/-- A blanked-out fill-in-the-blank line; each of the three patterns is a
Python syntax error. -/
def lineIsStub (l : String) : Bool :=
  leadingEq l || trailingEq l || emptyArgSlot l

/-- A code cell containing a fill-in-the-blank stub; such a cell does not
compile as Python. -/
def cellHasStub (c : List String) : Bool := c.any lineIsStub

/-- The index of the first code cell that fails to compile because of a
stub, if any. -/
def firstStubCell (nb : NotebookDoc) : Option Nat :=
  nb.codeCells.findIdx? cellHasStub

/-- Python compiles a whole cell before executing any of it, so a cell
containing a syntax stub executes none of its lines. -/
def executedLines (c : List String) : List String :=
  if cellHasStub c then [] else c

/-- A Python 2-only print statement: `print` followed by a space and an
argument without parentheses.  Such a line is a syntax error under
Python 3. -/
def py2PrintLine (l : String) : Bool :=
  lineStarts l "print " && !(lineStarts l "print (")

/-- The document contains a Python 2-only print statement. -/
def docHasPy2Print (nb : NotebookDoc) : Bool :=
  (docLines nb).any py2PrintLine

/-- The notebook documents stored under `src/notebooks`. -/
def notebooksDirDocs : List NotebookDoc :=
  corpus.filter (·.inNotebooksDir)

/-- Call patterns that consume NumPy global randomness in the elasticity
and Cahn-Hilliard notebooks. -/
def randomnessConsumers : List String :=
  ["make_elastic_FE_strain_random(", "make_cahn_hilliard(",
   "np.random.normal("]

/-- The line calls one of the NumPy-randomness consumers. -/
def isConsumerLine (l : String) : Bool :=
  randomnessConsumers.any fun p => lineContains l p

/-- The fixed constant of an explicit `np.random.seed` call on the line,
if any; the corpus uses exactly the constants 99, 191 and 101. -/
def seedConst (l : String) : Option Nat :=
  if lineContains l "np.random.seed(99)" then some 99
  else if lineContains l "np.random.seed(191)" then some 191
  else if lineContains l "np.random.seed(101)" then some 101
  else none

/-- Every randomness-consuming line is strictly preceded by a line with an
explicit fixed-constant `np.random.seed` call.  `seen` records whether a
seed call has occurred on an earlier line. -/
def seededBeforeUse (seen : Bool) : List String → Bool
  | [] => true
  | l :: ls =>
    if isConsumerLine l && !seen then false
    else seededBeforeUse (seen || (seedConst l).isSome) ls

/-- The document seeds the NumPy generator before every randomness-consuming
call. -/
def docSeedDiscipline (nb : NotebookDoc) : Bool :=
  seededBeforeUse false (docLines nb)

/-- Abstract semantics of the NumPy global random generator while running a
document's lines top to bottom: the state is a natural number, an explicit
`np.random.seed(c)` line resets it to `c`, and each randomness-consuming
line emits the current state and advances it.  The emitted list captures
the random data the run generates; the initial state `s` models the
session-dependent RNG state at kernel start. -/
def runRng (s : Nat) : List String → List Nat
  | [] => []
  | l :: ls =>
    if isConsumerLine l then s :: runRng (s + 1) ls
    else
      match seedConst l with
      | some c => runRng c ls
      | none => runRng s ls

/-- No code cell defines a function or class, and every computational symbol
that is used outside an import statement is imported from an external
`pymks` or `sklearn` module in the same document. -/
def corpusDelegatesComputation : Bool :=
  (corpus.all fun nb => !docDefinesFunctionOrClass nb) &&
  (corpus.all fun nb => computationalSymbols.all fun s =>
    !docUsesSymbol nb s || docImportsSymbolExternally nb s)

/-- The external-interface claim as stated: no code cell calls an external
API outside the MKS library's surface. -/
def onlyMKSExternalCalls : Bool :=
  corpus.all fun nb => !docCallsNonMKSExternal nb

/-- Every import statement in every code cell names a module rooted in the
MKS library or the standard scientific-Python stack. -/
def importsOnlyScientificStack : Bool :=
  corpus.all fun nb => (docLines nb).all fun l =>
    !isImportLine l || allowedImportRoots.contains ((importRoot l).getD "")

/-- The four advertised demonstration tasks, each located in its notebook:
homogenization in part_000, strain localization on delta microstructures in
elasticity_2D, Cahn-Hilliard evolution in cahn_hilliard, and 2-point
statistics in checker_board. -/
def coversAdvertisedTasks : Bool :=
  (docMentions part_000 "MKSHomogenizationModel" &&
   docMentions part_000 "model.fit") &&
  (docMentions elasticity_2D_doc1 "MKSLocalizationModel" &&
   docMentions elasticity_2D_doc1 "make_delta_microstructures" &&
   docMentions elasticity_2D_doc1 "make_elastic_FE_strain_delta" &&
   docMentions elasticity_2D_doc1 "model.fit") &&
  (docMentions cahn_hilliard "make_cahn_hilliard" &&
   docMentions cahn_hilliard "CahnHilliardSimulation" &&
   docMentions cahn_hilliard "ch_sim.run") &&
  (docMentions checker_board "autocorrelate" &&
   docMentions checker_board "crosscorrelate")

/-- No code cell contains an error-handling construct or inspects an error
or status result. -/
def noErrorHandling : Bool :=
  corpus.all fun nb => (docLines nb).all fun l =>
    !(errorHandlingMarkers.any fun t => lineContains l t)

/-- No code cell imports a module named after another notebook, and no code
cell uses a channel (file read, %run, %store) through which one notebook
could observe another. -/
def notebooksIndependent : Bool :=
  (corpus.all fun nb => (docLines nb).all fun l =>
    !isImportLine l || !(notebookModuleNames.contains ((importRoot l).getD ""))) &&
  (corpus.all fun nb => (docLines nb).all fun l =>
    !(crossNotebookChannels.any fun t => lineContains l t))

/-- No code cell opens, writes, saves or pickles a file or database. -/
def noPersistentEffects : Bool :=
  corpus.all fun nb => (docLines nb).all fun l =>
    !(persistenceMarkers.any fun t => lineContains l t)

/-- No code cell creates a thread or process, or uses async primitives. -/
def noConcurrencyConstructs : Bool :=
  corpus.all fun nb => (docLines nb).all fun l =>
    !(concurrencyMarkers.any fun t => lineContains l t)

/-- The Python 2 binding claim as stated: every document under
`src/notebooks` declares kernelspec `python2` at language version 2.7.9,
and every document of the corpus has a Python 2-only print statement (the
claim's stated reason why no notebook can run under a Python 3 kernel). -/
def boundToPython279Everywhere : Bool :=
  (notebooksDirDocs.all fun nb =>
    nb.kernelName == some "python2" &&
    nb.kernelLanguageVersion == some "2.7.9") &&
  (corpus.all fun nb => docHasPy2Print nb)

end PymksOverview

namespace PymksOverview

/-- C1: in every code cell of every notebook document under src/, no line
defines a Python function or class (nor a lambda), and each computational
symbol (strain simulation, Cahn-Hilliard stepping, influence-coefficient
calibration, spatial correlation) that is used outside an import statement
is imported from an external pymks or sklearn module in the same document:
the corpus contains no original algorithmic implementation. -/
theorem no_local_implementation : corpusDelegatesComputation = true := by
  rfl

/-- C2 counterexample: the cahn_hilliard notebook imports `train_test_split`
from `sklearn.cross_validation` and calls it in a code cell; sklearn's
model-selection API is not part of the MKS library's API surface
(microstructure/strain generators, localization/homogenization model
classes, correlation functions, the Cahn-Hilliard simulation object), so
the claim that no code cell calls an external API outside that surface is
false. -/
theorem external_calls_beyond_mks :
    docCallsNonMKSExternal cahn_hilliard = true ∧
    onlyMKSExternalCalls = false :=
  ⟨rfl, rfl⟩

/-- C2 amended: every external interface used by a code cell comes from the
MKS library (`pymks`) or from the standard scientific-Python stack: every
statement importing a module in every code cell names a module rooted at
pymks, sklearn, numpy, matplotlib or math. -/
theorem imports_limited_to_scientific_stack :
    importsOnlyScientificStack = true := by
  rfl

/-- C3: the corpus covers all four advertised demonstration tasks:
part_000 exercises an MKSHomogenizationModel and fits it; elasticity_2D
exercises an MKSLocalizationModel fitted on delta-microstructure strain
data; cahn_hilliard exercises make_cahn_hilliard and runs a
CahnHilliardSimulation; checker_board exercises autocorrelate and
crosscorrelate. -/
theorem covers_advertised_tasks : coversAdvertisedTasks = true := by
  rfl

/-- C4: no code cell in the corpus contains a try/except block, a raise
statement, or an inspection of an error or status result (no Error or
Exception name, no errno or status attribute, no assert): every cell
assumes its calls succeed. -/
theorem no_error_handling_constructs : noErrorHandling = true := by
  rfl

/-- C5: the notebook documents are mutually independent: no code cell
imports a module named after another notebook, and no code cell uses any
channel (file access via open, the %run or %store magics) through which
data could flow between notebooks; each notebook's only data flow is
cell-to-cell within itself. -/
theorem notebooks_mutually_independent : notebooksIndependent = true := by
  rfl

/-- C6: no code cell opens, writes, saves or pickles a file or database:
executing cells leaves every store outside the kernel's memory unchanged,
and all produced state is in-memory only. -/
theorem no_external_state_effects : noPersistentEffects = true := by
  rfl

/-- C7: no code cell creates a thread or process, uses async primitives, or
touches any concurrency machinery; each notebook's cells form a single
sequential synchronous stream. -/
theorem no_concurrency_constructs : noConcurrencyConstructs = true := by
  rfl

/-- C8: every notebook document contains fill-in-the-blank cells that are
not syntactically valid Python: assignments with an empty left-hand side
(`= make_elastic_FE_strain_delta(...)`), assignments with an empty
right-hand side (`X, y = `), and calls with empty argument slots
(`draw_microstructure_strain(,)`).  Running each document top to bottom
therefore fails at its first stub cell (indices computed below), and since
Python compiles a cell before executing any of it, the stub cell executes
none of its lines, so no library computation in that cell occurs. -/
theorem stub_cells_fail_syntax :
    (corpus.all fun nb => (firstStubCell nb).isSome) = true ∧
    firstStubCell elasticity_2D_doc1 = some 2 ∧
    firstStubCell elasticity_2D_doc2 = some 3 ∧
    firstStubCell cahn_hilliard = some 1 ∧
    firstStubCell checker_board = some 1 ∧
    firstStubCell python_intro_checkpoint = some 4 ∧
    firstStubCell part_000 = some 1 ∧
    leadingEq "= make_elastic_FE_strain_delta(elastic_modulus=elastic_modulus,\n" = true ∧
    trailingEq "X, y = " = true ∧
    emptyArgSlot "draw_microstructure_strain(,)" = true ∧
    (elasticity_2D_doc1.codeCells.getD 2 []).any
      (fun l => lineContains l "make_elastic_FE_strain_delta(") = true ∧
    executedLines (elasticity_2D_doc1.codeCells.getD 2 []) = [] ∧
    executedLines (cahn_hilliard.codeCells.getD 1 []) = [] ∧
    executedLines (checker_board.codeCells.getD 1 []) = [] ∧
    executedLines (part_000.codeCells.getD 1 []) = [] :=
  ⟨rfl, rfl, rfl, rfl, rfl, rfl, rfl, rfl, rfl, rfl, rfl, rfl, rfl, rfl,
   rfl⟩

/-- C9 counterexample: the second notebook document stored in
src/notebooks/elasticity_2D.ipynb declares language version 2.7.10, not
2.7.9, and the cahn_hilliard notebook contains no Python 2-only print
statement (every print in it uses the parenthesized form that is also valid
Python 3), so the claim as stated — all declared versions are 2.7.9 and no
notebook in the corpus is executable under a Python 3 kernel because of
print-statement syntax — is false. -/
theorem python2_binding_counterexample :
    elasticity_2D_doc2.kernelLanguageVersion = some "2.7.10" ∧
    docHasPy2Print cahn_hilliard = false ∧
    boundToPython279Everywhere = false :=
  ⟨rfl, rfl, rfl⟩

/-- C9 amended: every notebook document under src/notebooks declares the
Python 2 kernel `python2`, at language version 2.7.9 or 2.7.10; the two
elasticity_2D documents and checker_board contain Python 2-only print
statements (so they cannot run under a Python 3 kernel even with their
blanks filled in), while cahn_hilliard, python_intro and part_000 contain
none. -/
theorem python2_binding_amended :
    (notebooksDirDocs.all fun nb => nb.kernelName == some "python2") = true ∧
    (notebooksDirDocs.all fun nb =>
      nb.kernelLanguageVersion == some "2.7.9" ||
      nb.kernelLanguageVersion == some "2.7.10") = true ∧
    docHasPy2Print elasticity_2D_doc1 = true ∧
    docHasPy2Print elasticity_2D_doc2 = true ∧
    docHasPy2Print checker_board = true ∧
    docHasPy2Print cahn_hilliard = false ∧
    docHasPy2Print python_intro_checkpoint = false ∧
    docHasPy2Print part_000 = false :=
  ⟨rfl, rfl, rfl, rfl, rfl, rfl, rfl, rfl⟩

/-- C10: in both elasticity_2D documents and in cahn_hilliard, every line
calling a NumPy-randomness consumer (make_elastic_FE_strain_random,
make_cahn_hilliard, np.random.normal) is strictly preceded in the
document's line order by an explicit np.random.seed call with a fixed
constant (99, 191 or 101); consequently, in the abstract RNG semantics
`runRng`, the random data generated by a full run is independent of the
session's initial RNG state, so two complete runs generate identical
random datasets and initial concentration fields. -/
theorem fixed_seed_precedes_randomness :
    docSeedDiscipline elasticity_2D_doc1 = true ∧
    docSeedDiscipline elasticity_2D_doc2 = true ∧
    docSeedDiscipline cahn_hilliard = true ∧
    ∀ s t : Nat,
      runRng s (docLines elasticity_2D_doc1) =
        runRng t (docLines elasticity_2D_doc1) ∧
      runRng s (docLines elasticity_2D_doc2) =
        runRng t (docLines elasticity_2D_doc2) ∧
      runRng s (docLines cahn_hilliard) =
        runRng t (docLines cahn_hilliard) :=
  ⟨rfl, rfl, rfl, fun _ _ => ⟨rfl, rfl, rfl⟩⟩

/-- Closed instance of C10 at the concrete initial RNG states 0 and 1: the
Cahn-Hilliard notebook's generated random data agrees across the two
sessions. -/
theorem fixed_seed_precedes_randomness_witness :
    runRng 0 (docLines cahn_hilliard) = runRng 1 (docLines cahn_hilliard) :=
  (fixed_seed_precedes_randomness.2.2.2 0 1).2.2

end PymksOverview
